import Mathlib

/-!
Verification of the dune-rest-next runtime type-and-equality engine.

The JavaScript sources (src/model/equality.base.mjs, src/model/equality.mjs,
src/model/setlike.mjs, src/model/integer.mjs and the unnamed modules) are
shallowly embedded below.  JavaScript values are modelled by the inductive
type JSVal; code that can throw is modelled in the Except monad with a
JSError value describing the thrown error.  JavaScript numbers are modelled
by JSNum: the claims under study only involve NaN, the infinities, signed
zero and (safe) integer values, so the finite fraction part of IEEE doubles
is not represented.  Object and array values are modelled structurally;
reference identity (the === comparison on two object operands) is modelled
as false because the embedded claims never compare an aliased object with
itself via === (every === comparison below is between primitive values).
-/

/-- JavaScript numbers, restricted to the values exercised by the claims:
NaN, the two infinities, negative zero and integers (`int 0` is +0). -/
inductive JSNum where
  | nan
  | posInf
  | negInf
  | negZero
  | int (n : Int)
deriving DecidableEq

/-- JavaScript values.  `strObj` is a boxed String object (as produced by
`new String(...)`): its typeof is "object" and it is an instanceof String,
unlike a primitive `str`.  `obj` carries its own-property list in insertion
order; `arr` is an Array. -/
inductive JSVal where
  | undefined
  | null
  | bool (b : Bool)
  | num (n : JSNum)
  | str (s : String)
  | strObj (s : String)
  | bigint (n : Int)
  | arr (elems : List JSVal)
  | obj (props : List (String × JSVal))

/-- Thrown JavaScript errors, distinguished by constructor and message. -/
inductive JSError where
  | typeError (msg : String)
  | referenceError (msg : String)
  | rangeError (msg : String)
  | assertionError (msg : String)
deriving DecidableEq

/-- The JavaScript typeof operator. -/
def jsTypeof : JSVal → String
  | .undefined => "undefined"
  | .null => "object"
  | .bool _ => "boolean"
  | .num _ => "number"
  | .str _ => "string"
  | .strObj _ => "object"
  | .bigint _ => "bigint"
  | .arr _ => "object"
  | .obj _ => "object"

/-- ToBoolean on a JavaScript number: false for NaN and both zeros. -/
def jsNumTruthy : JSNum → Bool
  | .nan => false
  | .negZero => false
  | .int n => n != 0
  | .posInf => true
  | .negInf => true

/-- The JavaScript ToBoolean coercion (truthiness). -/
def jsTruthy : JSVal → Bool
  | .undefined => false
  | .null => false
  | .bool b => b
  | .num n => jsNumTruthy n
  | .str s => s ≠ ""
  | .strObj _ => true
  | .bigint n => n != 0
  | .arr _ => true
  | .obj _ => true

/-- `v == null` in JavaScript: true exactly for null and undefined. -/
def looseEqNull : JSVal → Bool
  | .null => true
  | .undefined => true
  | _ => false

/-- Strict equality (===) on numbers: NaN is unequal to everything,
+0 equals -0, otherwise numeric equality. -/
def jsNumStrictEq : JSNum → JSNum → Bool
  | .nan, _ => false
  | _, .nan => false
  | .negZero, .negZero => true
  | .negZero, .int n => n == 0
  | .int n, .negZero => n == 0
  | .int a, .int b => a == b
  | .posInf, .posInf => true
  | .negInf, .negInf => true
  | _, _ => false

/-- The JavaScript strict equality operator (===).  Two object references
are equal only when aliased; the embedding never aliases, and no ===
comparison reached by the claims has two object operands, so the object
cases are false. -/
def jsStrictEq : JSVal → JSVal → Bool
  | .undefined, .undefined => true
  | .null, .null => true
  | .bool a, .bool b => a == b
  | .num a, .num b => jsNumStrictEq a b
  | .str a, .str b => a == b
  | .bigint a, .bigint b => a == b
  | _, _ => false

/-- Object.is, the SameValue algorithm: like === except NaN equals NaN and
+0 differs from -0 (JSNum structural equality gives exactly that).  Object
references as in jsStrictEq. -/
def objectIs : JSVal → JSVal → Bool
  | .undefined, .undefined => true
  | .null, .null => true
  | .bool a, .bool b => a == b
  | .num a, .num b => a == b
  | .str a, .str b => a == b
  | .bigint a, .bigint b => a == b
  | _, _ => false

/-- Decimal rendering of a JavaScript number (ToString).  -0 renders "0". -/
def jsNumToString : JSNum → String
  | .nan => "NaN"
  | .posInf => "Infinity"
  | .negInf => "-Infinity"
  | .negZero => "0"
  | .int n => toString n

/-- Fueled ToString coercion ("" + value).  Arrays join their elements with
commas; plain objects render "[object Object]". -/
def jsToStringFuel : Nat → JSVal → String
  | 0, _ => ""
  | fuel+1, v =>
    match v with
    | .undefined => "undefined"
    | .null => "null"
    | .bool b => if b then "true" else "false"
    | .num n => jsNumToString n
    | .str s => s
    | .strObj s => s
    | .bigint n => toString n
    | .arr es => String.intercalate "," (es.map (jsToStringFuel fuel))
    | .obj _ => "[object Object]"

/-- ToString coercion with ample fuel (the embedded values are shallow). -/
def jsToString (v : JSVal) : String := jsToStringFuel 100 v

/-- Property read on values that property access cannot throw on: objects
look up their own properties (undefined when absent); arrays expose length
and their indices; strings expose length and one-character slices;
remaining primitives have none of the accessed properties. -/
def objGet (v : JSVal) (name : String) : JSVal :=
  match v with
  | .obj props => (props.lookup name).getD .undefined
  | .arr es =>
    if name = "length" then .num (.int es.length)
    else
      match name.toNat? with
      | some i => es.getD i .undefined
      | none => .undefined
  | .str s =>
    if name = "length" then .num (.int s.length)
    else
      match name.toNat? with
      | some i =>
        match s.data.get? i with
        | some c => .str (String.singleton c)
        | none => .undefined
      | none => .undefined
  | .strObj s =>
    if name = "length" then .num (.int s.length)
    else
      match name.toNat? with
      | some i =>
        match s.data.get? i with
        | some c => .str (String.singleton c)
        | none => .undefined
      | none => .undefined
  | _ => .undefined

/-- JavaScript property access `v.name`: throws TypeError on null and
undefined, otherwise reads as objGet. -/
def getProp (v : JSVal) (name : String) : Except JSError JSVal :=
  match v with
  | .null => .error (.typeError "Cannot read properties of null")
  | .undefined => .error (.typeError "Cannot read properties of undefined")
  | v => .ok (objGet v name)

/-- Membership test used by the in operator, on values it does not throw
on (objects, arrays, boxed strings). -/
def objHas (v : JSVal) (name : String) : Bool :=
  match v with
  | .obj props => props.any (fun p => p.1 = name)
  | .arr es =>
    name = "length" ||
      (match name.toNat? with
       | some i => i < es.length
       | none => false)
  | .strObj s =>
    name = "length" ||
      (match name.toNat? with
       | some i => i < s.length
       | none => false)
  | _ => false

/-- The JavaScript in operator: `name in v`.  Applying in to a primitive
(including null and undefined) throws a TypeError. -/
def jsIn (name : String) (v : JSVal) : Except JSError Bool :=
  match v with
  | .obj _ => .ok (objHas v name)
  | .arr _ => .ok (objHas v name)
  | .strObj _ => .ok (objHas v name)
  | _ => .error (.typeError ("Cannot use 'in' operator to search for '" ++ name ++ "'"))

/-- Array index access `v[i]` for the array and string values the claims
index into (property access on null or undefined throws). -/
def jsIdx (v : JSVal) (i : Nat) : Except JSError JSVal :=
  match v with
  | .null => .error (.typeError "Cannot read properties of null")
  | .undefined => .error (.typeError "Cannot read properties of undefined")
  | .arr es => .ok (es.getD i .undefined)
  | v => .ok (objGet v (toString i))

/-- `a || b`: the first operand when truthy, otherwise the second. -/
def jsOrVal (a b : JSVal) : JSVal := if jsTruthy a then a else b

/-- Is the value null or undefined (the nullish-coalescing test of ??). -/
def jsNullish : JSVal → Bool
  | .null => true
  | .undefined => true
  | _ => false

/-- `v instanceof Object`: true for objects, arrays and boxed strings. -/
def instanceofObject : JSVal → Bool
  | .obj _ => true
  | .arr _ => true
  | .strObj _ => true
  | _ => false

/-- `v instanceof String`: true only for boxed String objects, never for
primitive strings. -/
def instanceofString : JSVal → Bool
  | .strObj _ => true
  | _ => false

/-- Embeds sameValueZero (src/src/model/equality.base.mjs lines 39-50, and
identically src/unnamed/part_001 lines 95-106).  The number branch of the
source evaluates Number.sameValueZero(compared, comparee); ECMAScript
defines no such member on the Number constructor and the repository never
creates one, so the member read yields undefined and the call throws a
TypeError. -/
def sameValueZero (compared comparee : JSVal) : Except JSError Bool :=
  if jsTypeof compared ≠ jsTypeof comparee then
    .ok false
  else if looseEqNull compared then
    -- Compared was either null or undefined.
    .ok true
  else if jsTypeof compared = "number" then
    .error (.typeError "Number.sameValueZero is not a function")
  else
    .ok (objectIs compared comparee)

/-- Embeds sameValue (src/src/model/equality.base.mjs lines 59-70).  The
number branch calls Number.sameValue, which ECMAScript likewise does not
define, so it throws the analogous TypeError. -/
def sameValue (compared comparee : JSVal) : Except JSError Bool :=
  if jsTypeof compared ≠ jsTypeof comparee then
    .ok false
  else if looseEqNull compared then
    .ok true
  else if jsTypeof compared = "number" then
    .error (.typeError "Number.sameValue is not a function")
  else
    .ok (objectIs compared comparee)

/-- Embeds strictEquality (src/src/model/equality.base.mjs lines 28-30). -/
def strictEquality (compared comparee : JSVal) : Bool :=
  jsStrictEq compared comparee

/-!
## Regular expressions

src/src/model/integer.mjs builds its name grammar from RegExp source
strings.  Two slips in those strings matter and are reproduced exactly:

* namesWordRegex concatenates two name words with a single mandatory
  joiner and no repetition quantifier, so it matches exactly two words;
* nameRegEx appends the plain (non-raw) JavaScript string "\k<quot>" to the
  pattern; in a string literal the backslash before k is dropped, so
  instead of a backreference the pattern requires the literal text k<quot>.

The character classes are modelled on their ASCII fragments (plus the
extra literal characters of the source class); all strings the claims
evaluate the grammar on are ASCII. -/

/-- Regular expressions over characters: empty word, character class,
concatenation, alternation and Kleene star (grouping is implicit). -/
inductive JsRegex where
  | eps
  | cls (p : Char → Bool)
  | cat (a b : JsRegex)
  | alt (a b : JsRegex)
  | star (a : JsRegex)

/-- One-or-more repetition, r+ = r r*. -/
def JsRegex.rplus (r : JsRegex) : JsRegex := .cat r (.star r)

/-- Zero-or-one repetition, r? . -/
def JsRegex.ropt (r : JsRegex) : JsRegex := .alt r .eps

/-- A literal character. -/
def JsRegex.chr (c : Char) : JsRegex := .cls (fun d => d = c)

/-- A literal string. -/
def JsRegex.lit (s : String) : JsRegex :=
  s.data.foldr (fun c r => JsRegex.cat (JsRegex.chr c) r) .eps

/-- Fueled backtracking matcher in continuation style: does some prefix of
s match r such that the continuation accepts the rest?  The guard on star
requires each iteration to consume input, which is how JavaScript engines
break empty-match loops; it does not change the recognised language. -/
def JsRegex.mmatch : Nat → JsRegex → List Char → (List Char → Bool) → Bool
  | 0, _, _, _ => false
  | fuel+1, r, s, k =>
    match r with
    | .eps => k s
    | .cls p =>
      match s with
      | [] => false
      | c :: cs => p c && k cs
    | .cat a b => JsRegex.mmatch fuel a s (fun s2 => JsRegex.mmatch fuel b s2 k)
    | .alt a b => JsRegex.mmatch fuel a s k || JsRegex.mmatch fuel b s k
    | .star a =>
      k s ||
        JsRegex.mmatch fuel a s (fun s2 =>
          if s2.length < s.length then JsRegex.mmatch fuel (.star a) s2 k else false)

/-- RegExp.test for a pattern anchored on both sides (^...$), as all the
name grammars are: the whole string must match. -/
def JsRegex.testFull (r : JsRegex) (s : String) : Bool :=
  JsRegex.mmatch 5000 r s.data (fun rest => rest.isEmpty)

/-- ASCII fragment of \p{Lu}. -/
def isLuChar (c : Char) : Bool := c.isUpper

/-- ASCII fragment of \p{Ll}. -/
def isLlChar (c : Char) : Bool := c.isLower

/-- ASCII fragment of \p{L}. -/
def isLChar (c : Char) : Bool := c.isAlpha

/-- ASCII fragment of \p{Zs} (the space separator). -/
def isZsChar (c : Char) : Bool := c = ' '

/-- ASCII fragment of \p{Pd} (dash punctuation). -/
def isPdChar (c : Char) : Bool := c = '-'

/-- \p{N} digits (ASCII fragment). -/
def isNdChar (c : Char) : Bool := c.isDigit

/-- The in-word joiner class of nameWordRegex: dash punctuation, backtick
(code 96), apostrophe, and the two literal characters the source string
carries (codes 194 and 180, a mojibake of an acute accent). -/
def nameJoinChar (c : Char) : Bool :=
  isPdChar c || c.toNat = 96 || c = '\'' || c.toNat = 194 || c.toNat = 180

/-- The quote class of the quot group: an optional double or single quote. -/
def quoteChar (c : Char) : Bool := c = '"' || c = '\''

/-- nameWordRegex (integer.mjs line 116): an uppercase letter, one or more
lowercase letters, then any number of joiner-plus-letters groups. -/
def nameWordRegex : JsRegex :=
  .cat (.cls isLuChar)
    (.cat (JsRegex.rplus (.cls isLlChar))
      (.star (.cat (.cls nameJoinChar)
        (.cat (.cls isLChar) (JsRegex.rplus (.cls isLlChar))))))

/-- namesWordRegex (integer.mjs lines 121-123): exactly two name words
joined by a dash or space (the source has no repetition quantifier on the
join group, despite its comment saying one or more). -/
def namesWordRegex : JsRegex :=
  .cat nameWordRegex
    (.cat (.cls (fun c => isPdChar c || isZsChar c)) nameWordRegex)

/-- nameRegEx (integer.mjs lines 130-131): anchored pattern
nameWord ( Zs quote? namesWord k<quot> )*.  The trailing k<quot> is the
literal text left over from the "\k<quot>" backreference written in a
non-raw string. -/
def nameRegEx : JsRegex :=
  .cat nameWordRegex
    (.star (.cat (.cls isZsChar)
      (.cat (JsRegex.ropt (.cls quoteChar))
        (.cat namesWordRegex (JsRegex.lit "k<quot>")))))

/-- Embeds isNamed (integer.mjs lines 139-147): false for null/undefined,
otherwise coerce to string and test the (anchored) name grammar.  The
try/catch around the coercion can only fire for symbols, which the
embedding does not carry. -/
def isNamed (value : JSVal) : Bool :=
  match value with
  | .null => false
  | .undefined => false
  | v => JsRegex.testFull nameRegEx (jsToString v)

/-- Embeds isDescribed (integer.mjs lines 207-211): an object with a
"description" property holding a non-empty string (primitive or boxed). -/
def isDescribed (value : JSVal) : Bool :=
  instanceofObject value && objHas value "description" &&
    (let d := objGet value "description"
     (jsTypeof d = "string" || instanceofString d) && (jsToString d).length > 0)

/-- Embeds isOptionallyDescribed (integer.mjs lines 224-226). -/
def isOptionallyDescribed (value : JSVal) : Bool :=
  instanceofObject value && (!objHas value "description" || isDescribed value)

/-- Embeds isTrait (integer.mjs lines 250-253).  The source is the bare
conjunction
typeof tested === "object" && "isTrait" in tested && tested.isTrait &&
isNamed(tested) && isOptionallyDescribed(tested);
typeof null is "object", so for a null argument the in operator is applied
to null and throws a TypeError. -/
def isTrait (tested : JSVal) : Except JSError Bool := do
  if jsTypeof tested ≠ "object" then return false
  let hasTag ← jsIn "isTrait" tested
  if !hasTag then return false
  let tag ← getProp tested "isTrait"
  if !jsTruthy tag then return false
  if !isNamed tested then return false
  return isOptionallyDescribed tested

/-- Embeds isTalent (integer.mjs lines 273-276); same null-throwing shape
as isTrait. -/
def isTalent (tested : JSVal) : Except JSError Bool := do
  if jsTypeof tested ≠ "object" then return false
  let hasTag ← jsIn "isTalent" tested
  if !hasTag then return false
  let tag ← getProp tested "isTalent"
  if !jsTruthy tag then return false
  if !isNamed tested then return false
  if !isDescribed tested then return false
  if !objHas tested "unique" then return true
  return jsTypeof (objGet tested "unique") = "boolean"

/-- A duck-typing interface description: required and optional member
testers, as the options argument of implementsInterface. -/
structure InterfaceDefinition where
  required : List (String × (JSVal → Bool)) := []
  optional : List (String × (JSVal → Bool)) := []

/-- Embeds implementsInterface (src/src/model/equality.mjs lines 39-58 and
src/unnamed/part_001 lines 44-63).  For an object argument the source runs
for (const property of required) where required is a plain object (the
default {} or the caller's options.required record); plain objects are not
iterable, so the loop header throws a TypeError before any member is
examined.  Non-object arguments return false. -/
def implementsInterface (value : JSVal) (_options : InterfaceDefinition := {}) :
    Except JSError Bool :=
  if instanceofObject value then
    .error (.typeError "required is not iterable")
  else
    .ok false

/-!
## Collection equality
-/

/-- Array.prototype.findIndex: index of the first element satisfying the
callback, or -1. -/
def jsFindIndexAux (p : JSVal → Bool) : List JSVal → Int → Int
  | [], _ => -1
  | x :: xs, i => if p x then i else jsFindIndexAux p xs (i + 1)

/-- findIndex starting at index 0. -/
def jsFindIndex (p : JSVal → Bool) (l : List JSVal) : Int :=
  jsFindIndexAux p l 0

/-- The expression (equalityFn(item, key)) >= 0 as JavaScript evaluates
it: the boolean is coerced to a number (true to 1, false to 0) and
compared with 0 — so it is true for either boolean. -/
def boolGeZero (b : Bool) : Bool := (if b then (1 : Int) else 0) ≥ 0

/-- ToBoolean of the number an every-callback returns: 0 is falsy, any
other integer (in particular -1) is truthy. -/
def intTruthy (n : Int) : Bool := n != 0

/-- A native JavaScript Set value: elems is its insertion-ordered list of
(distinct) keys.  Its size getter returns elems.length, and its has/keys
methods satisfy the three member tests of isSetLike (setlike.mjs 33-41),
so isSetLike holds of it; instanceof Set holds as well. -/
structure JSSetVal where
  elems : List JSVal

/-- Embeds equalSets (src/src/model/equality.mjs lines 94-109, identically
src/unnamed/part_001 lines 182-197) applied to native Set receivers (for
which the isSetLike guard passes and the instanceof-Set size check
applies).  The source's comparison operator >= 0 sits inside the findIndex
callback, not after the findIndex call:
comparedKeys.every((key) => (compareeKeys.findIndex((item) => (
    equalityFn(item, key)) >= 0)
))
so the callback is (item) => (equalityFn(item, key)) >= 0, which is true
for any boolean result, findIndex returns 0 on a non-empty key list and
-1 on an empty one, and every coerces that number (0 falsy, -1 truthy). -/
def equalSets (compared comparee : JSSetVal) (equalityFn : JSVal → JSVal → Bool) :
    Bool :=
  if compared.elems.length ≠ comparee.elems.length then
    false
  else
    let compareeKeys := comparee.elems
    let comparedKeys := compared.elems
    (comparedKeys.all (fun key =>
        intTruthy (jsFindIndex (fun item => boolGeZero (equalityFn item key)) compareeKeys)))
      &&
    (compareeKeys.all (fun key =>
        intTruthy (jsFindIndex (fun item => boolGeZero (equalityFn key item)) comparedKeys)))

/-- Embeds the equalArrays of integer.mjs (lines 492-495): both operands
must be arrays of equal length with element-wise equality under the
supplied function (default ===) at matching indices. -/
def equalArrays (a b : JSVal) (equalityFn : JSVal → JSVal → Bool) : Bool :=
  match a, b with
  | .arr xs, .arr ys =>
    xs.length == ys.length &&
      (List.zip xs ys).all (fun p => equalityFn p.1 p.2)
  | _, _ => false

/-- Embeds equalAssets (integer.mjs lines 539-542): name, quality, types
(as ordered arrays, === elementwise), tanglible [sic] and temporary are
compared; reserved and transferrable are not read at all.  The &&-chain
is evaluated left to right with short-circuit, as in the source. -/
def equalAssets (a b : JSVal) : Except JSError Bool := do
  if !jsStrictEq (← getProp a "name") (← getProp b "name") then return false
  if !jsStrictEq (← getProp a "quality") (← getProp b "quality") then return false
  if !equalArrays (← getProp a "types") (← getProp b "types") jsStrictEq then return false
  if !jsStrictEq (← getProp a "tanglible") (← getProp b "tanglible") then return false
  return jsStrictEq (← getProp a "temporary") (← getProp b "temporary")

/-!
## The character validation / normalization engine (class DuneCharacter)
-/

/-- The instance fields a DuneCharacter owns after the field assignments
in its constructor. -/
structure DuneCharacterState where
  traits : JSVal
  talents : JSVal
  assets : JSVal
  skills : JSVal
  drives : JSVal

/-- Embeds DuneCharacter.checkDuplicity (integer.mjs lines 688-696).  Its
body misspells two of its own binders: the findIndex callback evaluates
idenitytFn (the parameter is identityFn) and the following branch tests
wantInded (the parameter is wantIndex).  Neither name has any binding, so
with a non-empty collection the first callback invocation throws a
ReferenceError for idenitytFn, and with an empty collection findIndex
returns -1 without running the callback and the branch test throws a
ReferenceError for wantInded. -/
def DuneCharacter.checkDuplicity (collection : List JSVal) (_tested : JSVal) :
    Except JSError JSVal :=
  match collection with
  | [] => .error (.referenceError "wantInded is not defined")
  | _ :: _ => .error (.referenceError "idenitytFn is not defined")

/-- Embeds DuneCharacter.checkSubGroup (integer.mjs lines 725-753) as its
callers use it, with newMember = undefined: the reduce over the members
starts from {} (returned unchanged for an empty member array); on the
first iteration it calls checkDuplicity on the empty slice
subGroupMembers.slice(0, 0), which throws the wantInded ReferenceError
before any error is recorded or thrown deliberately. -/
def DuneCharacter.checkSubGroup (_subGroupName : String) (subGroupMembers : JSVal)
    (_throwError : Bool) : Except JSError JSVal :=
  match subGroupMembers with
  | .arr [] => .ok (.obj [])
  | .arr (_ :: _) => .error (.referenceError "wantInded is not defined")
  | _ => .error (.typeError "subGroupMembers.reduce is not a function")

/-- Embeds DuneCharacter.checkTraits (integer.mjs lines 705-708).  The
body calls checkSubGroup unqualified; static methods are not in scope
under their bare name inside an instance method and the module has no
other checkSubGroup binding, so the call throws a ReferenceError. -/
def DuneCharacter.checkTraits (_self : DuneCharacterState) (_throwError : Bool) :
    Except JSError JSVal :=
  .error (.referenceError "checkSubGroup is not defined")

/-- Embeds DuneCharacter.checkAssets (integer.mjs lines 762-771).  Its
second argument expression Object.getOwnPropertyNames(assets) evaluates
the bare identifier assets, which has no binding (the field is
this.assets), so the method throws a ReferenceError before any scanning
takes place. -/
def DuneCharacter.checkAssets (_self : DuneCharacterState) (_throwError : Bool) :
    Except JSError JSVal :=
  .error (.referenceError "assets is not defined")

/-- The identity function checkTalents passes to checkSubGroup
(integer.mjs line 786): (a) => ([a.unique ?? true, a.name]). -/
def talentIdentity (a : JSVal) : Except JSError JSVal := do
  let u ← getProp a "unique"
  let n ← getProp a "name"
  pure (.arr [if jsNullish u then .bool true else u, n])

/-- Comparison of a JavaScript value with an integer via >=: only a
non-NaN number compares, anything else (undefined length and so on) is
false. -/
def jsGeInt (v : JSVal) (k : Int) : Bool :=
  match v with
  | .num (.int n) => n ≥ k
  | .num .negZero => 0 ≥ k
  | .num .posInf => true
  | _ => false

/-- The identity-equality function checkTalents passes to checkSubGroup
(integer.mjs lines 787-788):
(id_a, id_b) => (id_a.length >= 2 && id_a.length === id_b.length
    && (!(id_a[0] || id_b[0]) || (id_a[1] === id_b[1])))
In particular when both unique flags are false the third conjunct's left
alternative !(id_a[0] || id_b[0]) is already true, so two non-unique
talents are identity-equal whatever their names are. -/
def talentIdEq (idA idB : JSVal) : Except JSError Bool := do
  let lenA ← getProp idA "length"
  if !jsGeInt lenA 2 then return false
  let lenB ← getProp idB "length"
  if !jsStrictEq lenA lenB then return false
  let a0 ← jsIdx idA 0
  let b0 ← jsIdx idB 0
  if !jsTruthy (jsOrVal a0 b0) then return true
  let a1 ← jsIdx idA 1
  let b1 ← jsIdx idB 1
  return jsStrictEq a1 b1

/-- Embeds DuneCharacter.checkTalents (integer.mjs lines 781-791): a
checkSubGroup scan of this.talents under talentIdentity/talentIdEq (which
the scan, were it able to run, would apply; see checkSubGroup). -/
def DuneCharacter.checkTalents (self : DuneCharacterState) (throwErr : Bool) :
    Except JSError JSVal :=
  DuneCharacter.checkSubGroup "talent" self.talents throwErr

/-- Embeds DuneCharacter.check (integer.mjs lines 666-674).  The
parameter is declared failOnfirst (lower-case f), but every statement of
the body passes failOnFirst; that identifier has no binding, so
evaluating the first argument expression throws a ReferenceError before
checkTraits is entered, for every character state. -/
def DuneCharacter.check (_self : DuneCharacterState) (_failOnfirst : Bool) :
    Except JSError JSVal :=
  .error (.referenceError "failOnFirst is not defined")

/-- Embeds DuneCharacter.normaliseTraits (integer.mjs lines 802-813).
The reduce callback's first statement evaluates
findIndex(result, (member) => (member.name === trait.name)); the module
declares find and firstIndex but no findIndex, and no import provides
one, so the first callback invocation throws a ReferenceError.  Only an
empty traits array (whose reduce never runs the callback) survives, and a
non-array traits value has no reduce method at all. -/
def normaliseTraits (traits : JSVal) : Except JSError JSVal :=
  match traits with
  | .arr [] => .ok (.arr [])
  | .arr (_ :: _) => .error (.referenceError "findIndex is not defined")
  | _ => .error (.typeError "this.traits.reduce is not a function")

/-- Embeds DuneCharacter.normalize (integer.mjs lines 797-799). -/
def DuneCharacter.normalize (self : DuneCharacterState) :
    Except JSError DuneCharacterState := do
  let traits2 ← normaliseTraits self.traits
  pure { self with traits := traits2 }

/-- Optional chaining options?.prop: undefined when the receiver is
nullish, an ordinary property read otherwise. -/
def optChain (v : JSVal) (name : String) : Except JSError JSVal :=
  match v with
  | .null => .ok .undefined
  | .undefined => .ok .undefined
  | v => getProp v name

/-- Embeds the DuneCharacter constructor (integer.mjs lines 631-658): the
five field assignments with their || defaults, then
if (options.normalize) this.normalize() else this.check(). -/
def DuneCharacter.construct (options : JSVal) : Except JSError DuneCharacterState := do
  let traits := jsOrVal (← optChain options "traits") (.arr [])
  let talents := jsOrVal (← optChain options "talents") (.arr [])
  let assets := jsOrVal (← optChain options "assets") (.arr [])
  let skills := jsOrVal (← optChain options "skills") (.obj [])
  let drives := jsOrVal (← optChain options "drives") (.obj [])
  let self : DuneCharacterState := ⟨traits, talents, assets, skills, drives⟩
  let normalizeOpt ← getProp options "normalize"
  if jsTruthy normalizeOpt then
    DuneCharacter.normalize self
  else
    let _report ← DuneCharacter.check self true
    pure self

/-!
## The talent template engine (createTalentTemplate)
-/

/-- One match of capturingPlaceholderRegex (integer.mjs line 157):
the kind word captured by the group called name and the optional digit
group called index.  RegExp exec results store these in match.groups;
the match array itself has no name property. -/
structure PlaceholderMatch where
  kindName : String
  idx : Option String
deriving DecidableEq

/-- Try to match capturingPlaceholderRegex at the head of the character
list: a bracket, an uppercase letter, lowercase letters, optional digits,
a closing bracket.  The three trailing classes are pairwise disjoint, so
the greedy scan is exact. -/
def matchPlaceholder : List Char → Option (PlaceholderMatch × List Char)
  | '[' :: c :: rest =>
    if isLuChar c then
      let ls := rest.takeWhile isLlChar
      let r1 := rest.dropWhile isLlChar
      let ds := r1.takeWhile isNdChar
      let r2 := r1.dropWhile isNdChar
      match r2 with
      | ']' :: r3 =>
        some (⟨(c :: ls).asString, if ds.isEmpty then none else some ds.asString⟩, r3)
      | _ => none
    else none
  | _ => none

/-- The while-exec loop over a /gu regex: successive non-overlapping
matches found left to right (fuel bounds the scan by the input length). -/
def scanPlaceholdersFuel : Nat → List Char → List PlaceholderMatch
  | 0, _ => []
  | _, [] => []
  | fuel+1, c :: rest =>
    match matchPlaceholder (c :: rest) with
    | some (m, r) => m :: scanPlaceholdersFuel fuel r
    | none => scanPlaceholdersFuel fuel rest

/-- All placeholder matches of a pattern string. -/
def scanPlaceholders (s : String) : List PlaceholderMatch :=
  scanPlaceholdersFuel (s.length + 1) s.data

/-- The gatekeeper chosen for one placeholder (integer.mjs lines 324-349).
The switch scrutinee is match.name; exec results carry their captures in
match.groups, and the match array has no name property, so the scrutinee
is undefined, every recognized-kind case fails its === comparison, and
control always reaches the default branch.  The recognized-kind branches
would not survive anyway: they push the result of calling isDrive(value)
and so on, and the identifier value has no binding there (nor does
isSkill anywhere in the module), so reaching one would throw a
ReferenceError at template-construction time.  The default gatekeeper
(value) => (value instanceof String && value.length > 0) accepts only
non-empty boxed String objects — a primitive string is not an instanceof
String. -/
def gatekeeperForMatch (_m : PlaceholderMatch) : Except JSError (JSVal → Bool) :=
  let scrutinee : JSVal := JSVal.undefined
  if jsStrictEq scrutinee (.str "Drive") then
    .error (.referenceError "value is not defined")
  else if jsStrictEq scrutinee (.str "Talent") then
    .error (.referenceError "value is not defined")
  else if jsStrictEq scrutinee (.str "Trait") then
    .error (.referenceError "value is not defined")
  else if jsStrictEq scrutinee (.str "Asset") then
    .error (.referenceError "value is not defined")
  else if jsStrictEq scrutinee (.str "Skill") then
    .error (.referenceError "value is not defined")
  else
    .ok (fun value => instanceofString value && jsGeInt (objGet value "length") 1)

/-- The state a createTalentTemplate call builds and closes over. -/
structure TalentTemplate where
  talentName : String
  placeholderNames : List String
  gatekeepers : List (JSVal → Bool)

/-- Embeds createTalentTemplate (integer.mjs lines 300-384): scan the
name for placeholders and record, per first occurrence of each distinct
key (kind name plus optional index), a gatekeeper in encounter order. -/
def createTalentTemplate (talentName : String) : Except JSError TalentTemplate :=
  (scanPlaceholders talentName).foldlM
    (fun (acc : TalentTemplate) m => do
      let key := m.kindName ++ (m.idx.getD "")
      if acc.placeholderNames.contains key then
        pure acc
      else do
        let gk ← gatekeeperForMatch m
        pure { acc with
          placeholderNames := acc.placeholderNames ++ [key],
          gatekeepers := acc.gatekeepers ++ [gk] })
    ⟨talentName, [], []⟩

/-- Embeds validInstantiator (integer.mjs lines 361-363): the argument
must be an array and every entry must sit below the gatekeeper count and
pass its positional gatekeeper. -/
def TalentTemplate.validInstantiator (t : TalentTemplate) (value : JSVal) : Bool :=
  match value with
  | .arr entries =>
    entries.enum.all (fun p =>
      decide (p.1 < t.gatekeepers.length) &&
        (t.gatekeepers.getD p.1 (fun _ => false)) p.2)
  | _ => false

/-- Embeds createInstance (integer.mjs lines 365-382).  When
validInstantiator rejects the argument it throws the RangeError of the
else branch.  When it accepts, const name = ... completes (the default
replacement functions are pure string work), and the returned object
literal then evaluates description ?? `Talent ${name}.`; description is
an undeclared identifier — the parameter the JSDoc documents as
descriptionTemplate is missing from the function signature — so a
ReferenceError is thrown and no Talent object is ever produced. -/
def TalentTemplate.createInstance (t : TalentTemplate) (value : JSVal) :
    Except JSError JSVal :=
  if t.validInstantiator value then
    .error (.referenceError "description is not defined")
  else
    .error (.rangeError "Invalid value for the talent creation")

/-!
## The safe JSON codec (src/unnamed/part_000)
-/

/-- ToNumber of a string (the +key coercion): empty/whitespace is 0, an
optionally signed digit string is that integer, anything else NaN.  The
keys the claims coerce are "" and short property names. -/
def jsStringToNumber (s : String) : JSNum :=
  let t := s.trim
  if t = "" then .int 0
  else
    let core : List Char → Option Int := fun ds =>
      if ds ≠ [] && ds.all isNdChar then some (ds.asString.toNat!) else none
    match t.data with
    | '-' :: ds => match core ds with
      | some n => if n = 0 then .negZero else .int (-n)
      | none => .nan
    | '+' :: ds => match core ds with
      | some n => .int n
      | none => .nan
    | ds => match core ds with
      | some n => .int n
      | none => .nan

/-- ToNumber of the values the codec coerces with unary plus. -/
def jsToNumber : JSVal → JSNum
  | .undefined => .nan
  | .null => .int 0
  | .bool b => .int (if b then 1 else 0)
  | .num n => n
  | .str s => jsStringToNumber s
  | .strObj s => jsStringToNumber s
  | _ => .nan

/-- Number.isSafeInteger. -/
def isSafeIntegerNum : JSNum → Bool
  | .int n => n.natAbs ≤ 2 ^ 53 - 1
  | .negZero => true
  | _ => false

/-- `v instanceof Date`: the embedding carries no Date values. -/
def instanceofDate (_v : JSVal) : Bool := false

/-- typeof-membership in a list of type names. -/
def typeofIn (v : JSVal) (ts : List String) : Bool := ts.contains (jsTypeof v)

/-- The filter option safeJsonReplacer is built with (part_000 lines
128-139): Dates, objects, the JSON-native primitive types and bigint all
pass; undefined/symbol/function values pass only under a numeric-looking
key (the array-slot exception). -/
def safeJsonFilter (value key : JSVal) : Bool :=
  instanceofDate value || instanceofObject value ||
    typeofIn value ["object", "string", "bigint", "boolean", "number"] ||
    (typeofIn key ["string", "number"] && isSafeIntegerNum (jsToNumber key) &&
      typeofIn value ["undefined", "symbol", "function"])

/-- The replacer option safeJsonReplacer is built with (part_000 lines
140-158), with its declared parameter order (value, key): bigint becomes
its decimal string with a trailing n, NaN and the infinities become the
bracket tokens, undefined/symbol/function become null, everything else
passes through. -/
def safeJsonInnerReplacer (value _key : JSVal) : JSVal :=
  if jsTypeof value = "bigint" then
    match value with
    | .bigint n => .str (toString n ++ "n")
    | _ => value
  else if jsTypeof value = "number" then
    match value with
    | .num .nan => .str "[NaN]"
    | .num .posInf => .str "[+Inf]"
    | .num .negInf => .str "[-Inf]"
    | _ => value
  else if typeofIn value ["undefined", "symbol", "function"] then
    .null
  else
    value

/-- The default key filter of createJsonReplacer when no fields array is
given (part_000 lines 93-96): string or number keys pass. -/
def keyFilterDefault (key : JSVal) : Bool :=
  jsTypeof key = "string" || jsTypeof key = "number"

/-- Embeds the function createJsonReplacer returns for safeJsonReplacer's
options (part_000 lines 105-119 applied to the options of lines 128-158).
Two slips are reproduced exactly:

* the accepted branch calls replacer(key, value), while the supplied
  replacer declares (value, key = "") — so the key string arrives in the
  replacer's value parameter and the actual value in its key parameter;
* the rejected branch evaluates ignore(value, key) first; no ignore
  option was supplied, so ignore is undefined and the call throws a
  TypeError before ignoreKey is consulted. -/
def safeJsonReplacerFn (key value : JSVal) : Except JSError JSVal :=
  if keyFilterDefault key && safeJsonFilter value key then
    .ok (safeJsonInnerReplacer key value)
  else
    .error (.typeError "ignore is not a function")

/-- JSON string quoting (the strings serialized here carry no control
characters; quote and backslash are escaped). -/
def quoteJson (s : String) : String :=
  "\"" ++
    String.join (s.data.map (fun c =>
      if c = '"' then "\\\""
      else if c = '\\' then "\\\\"
      else String.singleton c)) ++ "\""

/-- SerializeJSONProperty of JSON.stringify with a replacer function,
fueled by structure depth: apply the replacer to (key, value), then
serialize the result.  Strings quote; finite numbers print; NaN and the
infinities serialize as null; null/booleans print; bigint throws; arrays
and objects recurse (an undefined member vanishes, an undefined array
element becomes null); undefined yields no output. -/
def serializeJsonProp (replacerFn : JSVal → JSVal → Except JSError JSVal) :
    Nat → String → JSVal → Except JSError (Option String)
  | 0, _, _ => .error (.rangeError "Maximum call stack size exceeded")
  | fuel+1, key, value => do
    let v ← replacerFn (.str key) value
    match v with
    | .undefined => pure none
    | .null => pure (some "null")
    | .bool b => pure (some (if b then "true" else "false"))
    | .num n =>
      match n with
      | .nan => pure (some "null")
      | .posInf => pure (some "null")
      | .negInf => pure (some "null")
      | n => pure (some (jsNumToString n))
    | .str s => pure (some (quoteJson s))
    | .strObj s => pure (some (quoteJson s))
    | .bigint _ => .error (.typeError "Do not know how to serialize a BigInt")
    | .arr es => do
      let parts ← es.enum.mapM (fun p => do
        let r ← serializeJsonProp replacerFn fuel (toString p.1) p.2
        pure (r.getD "null"))
      pure (some ("[" ++ String.intercalate "," parts ++ "]"))
    | .obj props => do
      let parts ← props.foldlM (fun (acc : List String) p => do
        let r ← serializeJsonProp replacerFn fuel p.1 p.2
        match r with
        | some s => pure (acc ++ [quoteJson p.1 ++ ":" ++ s])
        | none => pure acc) []
      pure (some ("\x7b" ++ String.intercalate "," parts ++ "\x7d"))

/-- JSON.stringify(value, replacerFn): serialize the root value under the
empty key. -/
def jsonStringify (replacerFn : JSVal → JSVal → Except JSError JSVal)
    (value : JSVal) : Except JSError (Option String) :=
  serializeJsonProp replacerFn 100 "" value

/-- The regex of safeJsonRevier, /(?<value>^[+-]\d+)n$/ (part_000 line
167): a mandatory sign, one or more digits (captured together with the
sign), then a final n.  Returns the captured group on a match. -/
def bigIntSentinel (s : String) : Option String :=
  match s.data with
  | c :: rest =>
    if c = '+' || c = '-' then
      match rest.getLast? with
      | some 'n' =>
        let ds := rest.dropLast
        if ds ≠ [] && ds.all isNdChar then some ((c :: ds).asString) else none
      | _ => none
    else none
  | [] => none

/-- BigInt(string) on the captured group: an optionally signed digit
string. -/
def bigIntOfString (s : String) : Int :=
  match s.data with
  | '-' :: ds => -(Int.ofNat ds.asString.toNat!)
  | '+' :: ds => Int.ofNat ds.asString.toNat!
  | ds => Int.ofNat ds.asString.toNat!

/-- Embeds safeJsonRevier (part_000 lines 166-178): strings matching the
sentinel regex are turned back into BigInts, every other value passes
through unchanged. -/
def safeJsonRevier (_key value : JSVal) : JSVal :=
  match value with
  | .str s =>
    match bigIntSentinel s with
    | some g => .bigint (bigIntOfString g)
    | none => .str s
  | v => v

/-!
## Concrete values used by the claim theorems
-/

/-- A trait literal with name "Thief" and count 1. -/
def traitThief1 : JSVal :=
  .obj [("name", .str "Thief"), ("count", .num (.int 1)), ("isTrait", .bool true)]

/-- A second, separately constructed trait literal with the same name and
count (duplicate under name identity). -/
def traitThief2 : JSVal :=
  .obj [("name", .str "Thief"), ("count", .num (.int 1)), ("isTrait", .bool true)]

/-- A non-unique talent named Alpha. -/
def talentAlpha : JSVal :=
  .obj [("name", .str "Alpha"), ("description", .str "First talent."),
        ("isTalent", .bool true), ("unique", .bool false)]

/-- A non-unique talent named Beta (a different name than Alpha). -/
def talentBeta : JSVal :=
  .obj [("name", .str "Beta"), ("description", .str "Second talent."),
        ("isTalent", .bool true), ("unique", .bool false)]

/-- A unique talent named Gamma. -/
def talentGammaA : JSVal :=
  .obj [("name", .str "Gamma"), ("description", .str "Third talent."),
        ("isTalent", .bool true), ("unique", .bool true)]

/-- Another unique talent named Gamma: per the claim these two collide. -/
def talentGammaB : JSVal :=
  .obj [("name", .str "Gamma"), ("description", .str "Third talent again."),
        ("isTalent", .bool true), ("unique", .bool true)]

/-- A Skill named Battle. -/
def skillBattle : JSVal :=
  .obj [("name", .str "Battle"), ("isSkill", .bool true), ("value", .num (.int 4))]

/-- An asset; reserved false, transferrable true. -/
def assetSwordA : JSVal :=
  .obj [("isTrait", .bool true), ("isAsset", .bool true), ("name", .str "Sword"),
        ("description", .str "A fine blade."), ("count", .num (.int 1)),
        ("quality", .num (.int 1)), ("types", .arr [.str "Weapon"]),
        ("tanglible", .bool true), ("temporary", .bool false),
        ("reserved", .bool false), ("transferrable", .bool true)]

/-- The same asset data except reserved true and transferrable false. -/
def assetSwordB : JSVal :=
  .obj [("isTrait", .bool true), ("isAsset", .bool true), ("name", .str "Sword"),
        ("description", .str "A fine blade."), ("count", .num (.int 1)),
        ("quality", .num (.int 1)), ("types", .arr [.str "Weapon"]),
        ("tanglible", .bool true), ("temporary", .bool false),
        ("reserved", .bool true), ("transferrable", .bool false)]

/-!
## Claim theorems
-/

/-- Claim C1.  The claim states sameValueZero(v, v) is true for every v,
including NaN.  In the code the number branch calls Number.sameValueZero,
which ECMAScript does not define, so sameValueZero(NaN, NaN) — like any
number comparison — throws a TypeError instead of returning true. -/
theorem sameValueZero_nan_reflexivity_throws :
    sameValueZero (JSVal.num JSNum.nan) (JSVal.num JSNum.nan)
      = Except.error (JSError.typeError "Number.sameValueZero is not a function") :=
  rfl

/-- Claim C2.  The claim states equalSets(s, s) is true for every SetLike
s.  In the code the >= 0 comparison sits inside the findIndex callback,
so the callback is always truthy, findIndex returns 0 on the non-empty
key list, and every treats that 0 as false: for the one-element Set of 1
compared with (a copy of) itself, equalSets returns false.  (equalSets
never consults the identity of its receivers, so the copy is exact.) -/
theorem equalSets_singleton_not_reflexive :
    equalSets ⟨[JSVal.num (JSNum.int 1)]⟩ ⟨[JSVal.num (JSNum.int 1)]⟩ jsStrictEq
      = false :=
  rfl

/-- Claim C3.  The claim states normalize() folds the duplicate traits
[Thief count 1, Thief count 1] into the single trait Thief count 2.  In
the code normaliseTraits' reduce callback evaluates the unbound
identifier findIndex, so normalize() on a character with those traits
throws a ReferenceError and folds nothing. -/
theorem normalize_duplicate_traits_throws :
    DuneCharacter.normalize
        ⟨JSVal.arr [traitThief1, traitThief2], JSVal.arr [], JSVal.arr [],
         JSVal.obj [], JSVal.obj []⟩
      = Except.error (JSError.referenceError "findIndex is not defined") :=
  rfl

/-- Claim C4.  The claim states two talents collide iff both are unique
with the same name, and that two non-unique talents never collide.  In
the code the identity-equality function used by checkTalents declares two
non-unique talents (here Alpha and Beta, names differing) identity-equal,
and the scan that would report collisions (here on two unique talents
both named Gamma) throws a ReferenceError (wantInded) before reporting
anything. -/
theorem talent_collision_rule_refuted :
    (do
      let a ← talentIdentity talentAlpha
      let b ← talentIdentity talentBeta
      talentIdEq a b) = Except.ok true
    ∧ DuneCharacter.checkTalents
        ⟨JSVal.arr [], JSVal.arr [talentGammaA, talentGammaB], JSVal.arr [],
         JSVal.obj [], JSVal.obj []⟩ true
      = Except.error (JSError.referenceError "wantInded is not defined") :=
  ⟨rfl, rfl⟩

/-- Claim C5.  The claim states that for the template of the pattern
"Friend of [Skill]", createInstance with a Skill named Battle yields a
Talent named "Friend of Battle".  In the code the placeholder's
gatekeeper is the default one (the switch reads match.name, which is
undefined), accepting only non-empty boxed String objects; it rejects
both a Skill object and a primitive string, so createInstance throws the
invalid-argument RangeError instead of producing a Talent. -/
theorem talent_template_battle_throws :
    (do
      let t ← createTalentTemplate "Friend of [Skill]"
      t.createInstance (JSVal.arr [skillBattle]))
      = Except.error (JSError.rangeError "Invalid value for the talent creation")
    ∧ (do
      let t ← createTalentTemplate "Friend of [Skill]"
      t.createInstance (JSVal.arr [JSVal.str "Battle"]))
      = Except.error (JSError.rangeError "Invalid value for the talent creation") :=
  ⟨rfl, rfl⟩

/-- Claim C6.  equalAssets does return true for two assets identical in
name, quality, types, tanglible and temporary while differing in reserved
and transferrable (first conjunct, as the claim states); but the
character's asset duplicate check cannot report the pair: checkAssets
evaluates the unbound identifier assets and throws a ReferenceError
(second conjunct). -/
theorem asset_duplicate_check_refuted :
    equalAssets assetSwordA assetSwordB = Except.ok true
    ∧ DuneCharacter.checkAssets
        ⟨JSVal.arr [], JSVal.arr [], JSVal.arr [assetSwordA, assetSwordB],
         JSVal.obj [], JSVal.obj []⟩ true
      = Except.error (JSError.referenceError "assets is not defined") :=
  ⟨rfl, rfl⟩

/-- Claim C7.  The claim states that encoding the object with big = 10n
and bad = NaN and decoding it reproduces the object.  In the code the
composed replacer passes the key where the inner replacer expects the
value, so the root call replaces the whole object by the root key "" and
the encoded text is "\"\"" — the JSON text of the empty string (first
conjunct); the reviver maps the resulting empty string to itself (second
conjunct), so the round trip yields "" instead of the object.  Moreover
the reviver's regex demands a sign, so even the intended sentinel "10n"
would not be revived (third conjunct). -/
theorem safe_json_roundtrip_collapses :
    jsonStringify safeJsonReplacerFn
        (JSVal.obj [("big", JSVal.bigint 10), ("bad", JSVal.num JSNum.nan)])
      = Except.ok (some "\"\"")
    ∧ safeJsonRevier (JSVal.str "") (JSVal.str "") = JSVal.str ""
    ∧ bigIntSentinel "10n" = none :=
  ⟨rfl, rfl, rfl⟩

/-- Claim C8.  The claim states the predicates never throw and return
false on malformed input including null.  In the code typeof null is
"object", so isTrait(null) applies the in operator to null and throws a
TypeError (against the repository's own test expecting false), and
implementsInterface iterates a plain object with for..of and throws a
TypeError for every object argument. -/
theorem predicates_throw_on_malformed_input :
    isTrait JSVal.null
      = Except.error (JSError.typeError "Cannot use 'in' operator to search for 'isTrait'")
    ∧ implementsInterface (JSVal.obj [])
      = Except.error (JSError.typeError "required is not iterable") :=
  ⟨rfl, rfl⟩

/-- Claim C9.  The claim states isNamed("Bene Gesserit") is true.  In the
code the multi-word branch of the name grammar requires the literal text
k<quot> (the "\k<quot>" backreference written in a non-raw string) and
its join group lacks a repetition quantifier, so only single-word names
match and isNamed("Bene Gesserit") is false (first conjunct).  The
claim's other two evaluations do hold (second and third conjuncts). -/
theorem isNamed_bene_gesserit_false :
    isNamed (JSVal.str "Bene Gesserit") = false
    ∧ isNamed (JSVal.str "") = false
    ∧ isNamed (JSVal.num (JSNum.int 42)) = false :=
  ⟨rfl, rfl, rfl⟩

/-- Claim C10.  For every options object whose normalize property is
absent or falsy, the DuneCharacter constructor takes the validation path
and calls check(), whose body references the unbound identifier
failOnFirst (the parameter is spelled failOnfirst), so construction
throws a ReferenceError for every character state and no instance is
produced through the validation path. -/
theorem duneCharacter_validation_path_throws (props : List (String × JSVal))
    (h : jsTruthy ((props.lookup "normalize").getD JSVal.undefined) = false) :
    DuneCharacter.construct (JSVal.obj props)
      = Except.error (JSError.referenceError "failOnFirst is not defined") := by
  simp [DuneCharacter.construct, optChain, getProp, objGet, DuneCharacter.check,
    Bind.bind, Except.bind, h]

/-- Witness for C10: the default empty options object has a falsy
normalize property and construction indeed throws the ReferenceError. -/
theorem duneCharacter_validation_path_throws_witness :
    jsTruthy ((([] : List (String × JSVal)).lookup "normalize").getD JSVal.undefined) = false
    ∧ DuneCharacter.construct (JSVal.obj [])
      = Except.error (JSError.referenceError "failOnFirst is not defined") :=
  ⟨rfl, duneCharacter_validation_path_throws [] rfl⟩
